import Mathlib

/-!
DreamSculpt: verification of the scene lifecycle and gesture-dispatch core

Shallow embedding of the core of the DreamSculpt repository:

* `Lifecycle` — the per-object lifecycle state machine of
  `DreamRenderer.animate` (materialize / diffuse / removal phases) and the
  object registry operations (`addObjects`, `createPointCloudObject`,
  `triggerDiffuse`), from `src/unnamed/part_004`.  All numerics are exact
  rationals, so the model is executable.
* `CameraRigM` — the camera rig orbit clamps of `DreamRenderer.orbitCamera`
  (real-valued, constants are multiples of π).
* `Picking` — `DreamRenderer.findClosestObjectAtScreenPoint`.
* `Env` — the sky/terrain crossfade state of `DreamRenderer.setSkyAndTerrain`
  and the crossfade block of `animate`.
* `Dispatch` — `CameraActionManager.process` together with the built-in
  actions of `src/services/defaultCameraActions.ts`.

JavaScript `number`s are modelled as `ℚ` where the source only performs
field operations and comparisons, and as `ℝ` where the source uses
`Math.hypot`, `Math.atan2` or the π-based orbit constants.
-/

namespace Lifecycle

/-- Source `MATERIALIZE_DURATION = 10` (seconds), from part_004. -/
def MATERIALIZE_DURATION : ℚ := 10

/-- Source `DIFFUSE_FRACTION = 0.1`, from part_004. -/
def DIFFUSE_FRACTION : ℚ := 1/10

/-- Source `DIFFUSE_PHASE_DURATION = 3` (seconds), from part_004. -/
def DIFFUSE_PHASE_DURATION : ℚ := 3

/-- Source `OBJECT_LIFETIME_MIN = 45` (seconds), from part_004. -/
def OBJECT_LIFETIME_MIN : ℚ := 45

/-- Source `OBJECT_LIFETIME_MAX = 75` (seconds), from part_004. -/
def OBJECT_LIFETIME_MAX : ℚ := 75

/-- Source `REMOVAL_PERCENT_PER_FRAME = 0.003`, from part_004. -/
def REMOVAL_PERCENT_PER_FRAME : ℚ := 3/1000

/--
One entry of `DreamRenderer.objects` (part_004), restricted to the fields
that drive the lifecycle state machine.  `drawCount` is the count of the
draw range of the mesh geometry (`geometry.setDrawRange(0, drawCount)`); the
vertex position array itself (only mutated by the visually-irrelevant
diffusion jitter) is not modelled, except for the presence flag
`hasSnapshot` standing for `originalPositionsDiffuse`.
-/
structure ObjState where
  targetPoints : ℕ
  currentPoints : ℚ
  drawCount : ℕ
  loadedAt : ℚ
  lifetime : ℚ
  removalStartedAt : Option ℚ
  visiblePoints : Option ℕ
  diffusionPhaseStartedAt : Option ℚ
  diffusingStartIndex : Option ℕ
  hasSnapshot : Bool
  deriving DecidableEq, Repr

/--
The state set up by `createPointCloudObject` (part_004): `currentPoints`
starts at zero, the draw range is `setDrawRange(0, 0)`, and the lifetime is
`OBJECT_LIFETIME_MIN + rho * (OBJECT_LIFETIME_MAX - OBJECT_LIFETIME_MIN)`
where `rho` stands for the `Math.random()` sample.
-/
def createPointCloudObject (now rho : ℚ) (pointCount : ℕ) : ObjState :=
  { targetPoints := pointCount
    currentPoints := 0
    drawCount := 0
    loadedAt := now
    lifetime := OBJECT_LIFETIME_MIN + rho * (OBJECT_LIFETIME_MAX - OBJECT_LIFETIME_MIN)
    removalStartedAt := none
    visiblePoints := none
    diffusionPhaseStartedAt := none
    diffusingStartIndex := none
    hasSnapshot := false }

/--
`triggerDiffuse` (part_004) — despite the name, it restarts the materialize
effect: visible points reset to zero, diffusion state cleared.
-/
def triggerDiffuse (s : ObjState) : ObjState :=
  { s with
    currentPoints := 0
    diffusionPhaseStartedAt := none
    diffusingStartIndex := none
    hasSnapshot := false
    drawCount := 0 }

/--
Phase 1 of `animate` (part_004): while `currentPoints < targetPoints`,
reveal at rate `targetPoints / MATERIALIZE_DURATION` per second and update
the draw range to `Math.floor(currentPoints)`.
-/
def materializeStep (delta : ℚ) (s : ObjState) : ObjState :=
  if s.currentPoints < (s.targetPoints : ℚ) then
    let rate := (s.targetPoints : ℚ) / MATERIALIZE_DURATION
    let c := min (s.targetPoints : ℚ) (s.currentPoints + rate * delta)
    { s with currentPoints := c, drawCount := (⌊c⌋).toNat }
  else s

/-- The settle check of the diffusion block of `animate` (part_004): once
`currentPoints` has reached the target and no diffusion is in progress,
record the start time, the index of the trailing 10% of points, and the
position snapshot. -/
def startDiffusion (now : ℚ) (s : ObjState) : ObjState :=
  if (s.targetPoints : ℚ) ≤ s.currentPoints ∧ s.diffusionPhaseStartedAt = none then
    { s with
      diffusionPhaseStartedAt := some now
      diffusingStartIndex := some ((⌊(1 - DIFFUSE_FRACTION) * (s.targetPoints : ℚ)⌋).toNat)
      hasSnapshot := true }
  else s

/-- The elapsed-time check of the diffusion block: after
`DIFFUSE_PHASE_DURATION` seconds the diffusing points are hidden (the draw
range shrinks to the diffusion start index) and the state is cleared. -/
def finishDiffusion (now : ℚ) (s : ObjState) : ObjState :=
  match s.diffusionPhaseStartedAt, s.diffusingStartIndex with
  | some t, some k =>
    if DIFFUSE_PHASE_DURATION ≤ now - t then
      { s with
        drawCount := k
        diffusionPhaseStartedAt := none
        diffusingStartIndex := none
        hasSnapshot := false }
    else s
  | _, _ => s

/--
Phases 2 and 3 of `animate` (part_004): once settled, mark the last 10% of
points as diffusing and snapshot their positions; after
`DIFFUSE_PHASE_DURATION` seconds, shrink the draw range to hide them and
clear the diffusion state.  The per-frame random jitter only mutates vertex
positions and is not modelled.  The `posAttr.count === 0` guard is
`targetPoints = 0` here (the two quantities coincide for every object
`createPointCloudObject` admits).
-/
def diffuseStep (now : ℚ) (s : ObjState) : ObjState :=
  if s.targetPoints = 0 then s
  else finishDiffusion now (startDiffusion now s)

/--
The per-frame decrement inside the removal block of `animate` (part_004):
`visiblePoints = Math.max(0, visiblePoints - removePerFrame)` (`ℕ`
subtraction truncates at zero exactly like the `Math.max(0, ·)`), the draw
range follows, and the object is deleted (`none`) once no point is visible.
-/
def removalDecrement (s : ObjState) : Option ObjState :=
  let removePerFrame := max 1 (⌈(s.targetPoints : ℚ) * REMOVAL_PERCENT_PER_FRAME⌉).toNat
  let v := (s.visiblePoints.getD s.targetPoints) - removePerFrame
  let s1 := { s with visiblePoints := some v, drawCount := v }
  if v = 0 then none else some s1

/--
The lifetime/removal block of `animate` (part_004): removal starts once
`now - loadedAt` reaches the lifetime, capturing the current draw-range
count, and decrements immediately in the same frame.
-/
def removalStep (now : ℚ) (s : ObjState) : Option ObjState :=
  match s.removalStartedAt with
  | none =>
    if now - s.loadedAt < s.lifetime then some s
    else removalDecrement { s with removalStartedAt := some now, visiblePoints := some s.drawCount }
  | some _ => removalDecrement s

/--
One `animate` frame for one object (part_004): materialize, then diffuse,
then lifetime/removal, in source order; `none` means the object was deleted.
-/
def stepObj (now delta : ℚ) (s : ObjState) : Option ObjState :=
  removalStep now (diffuseStep now (materializeStep delta s))

/--
Run a sequence of frames with the given frame times (`deltas`); the clock
starts at `t` and the `now` of each frame is the accumulated elapsed time, as
with `clock.getDelta()` / `clock.getElapsedTime()`.
-/
def runFrames (t : ℚ) (deltas : List ℚ) (s : ObjState) : Option ObjState :=
  match deltas with
  | [] => some s
  | delta :: rest =>
    match stepObj (t + delta) delta s with
    | none => none
    | some s1 => runFrames (t + delta) rest s1

/-- The count invariant of claim C7, with the auxiliary bounds on the stored
diffusion index and removal counter needed for preservation. -/
def ObjInv (s : ObjState) : Prop :=
  0 ≤ s.currentPoints ∧ s.currentPoints ≤ (s.targetPoints : ℚ) ∧
  s.drawCount ≤ s.targetPoints ∧
  (∀ k, s.diffusingStartIndex = some k → k ≤ s.targetPoints) ∧
  (∀ v, s.visiblePoints = some v → v ≤ s.targetPoints)

instance (s : ObjState) : Decidable (ObjInv s) := by
  unfold ObjInv
  infer_instance

/--
One entry of the object list handed to `addObjects`: its id, whether its
type maps to a PLY source in `TYPE_TO_PLY` (in which case a zero point
count makes the loader skip the object), the resulting point count
(`posAttr.count` for PLY sources, `data.maxPoints` for generated
primitives), and the `Math.random()` sample used for the lifetime.
-/
structure LoadRequest where
  id : String
  usesPly : Bool
  pointCount : ℕ
  rho : ℚ
  deriving DecidableEq, Repr

/-- The registry-visible effect of `createPointCloudObject` (part_004):
PLY sources with zero points are skipped, otherwise the object is added. -/
def loadOne (now : ℚ) (o : LoadRequest) : Option (String × ObjState) :=
  if o.usesPly ∧ o.pointCount = 0 then none
  else some (o.id, createPointCloudObject now o.rho o.pointCount)

/-- The object registry of `DreamRenderer` plus the current selection. -/
structure Registry where
  objects : List (String × ObjState)
  selectedObjectId : Option String
  deriving DecidableEq, Repr

/--
`addObjects` (part_004): clears the selection and loads the given list.
The clearing of the previous object set (`this.movingWorld.clear()` /
`this.objects.clear()`) is commented out in the source, so previously
registered objects are retained.
-/
def addObjects (r : Registry) (now : ℚ) (objs : List LoadRequest) : Registry :=
  let r1 := { r with selectedObjectId := none }
  if objs.isEmpty then r1
  else { r1 with objects := r1.objects ++ objs.filterMap (loadOne now) }

/-- The state of a fresh 1000-point object after two one-second frames. -/
def c7WitnessState : ObjState :=
  { targetPoints := 1000, currentPoints := 200, drawCount := 200, loadedAt := 0, lifetime := 60,
    removalStartedAt := none, visiblePoints := none, diffusionPhaseStartedAt := none,
    diffusingStartIndex := none, hasSnapshot := false }

end Lifecycle

namespace CameraRigM

/-- Source `YAW_MIN = -(85 * Math.PI) / 180`, from part_004. -/
noncomputable def YAW_MIN : ℝ := -(85 * Real.pi) / 180

/-- Source `YAW_MAX = (85 * Math.PI) / 180`, from part_004. -/
noncomputable def YAW_MAX : ℝ := 85 * Real.pi / 180

/-- Source `PITCH_MIN = -(45 * Math.PI) / 180`, from part_004. -/
noncomputable def PITCH_MIN : ℝ := -(45 * Real.pi) / 180

/-- Source `PITCH_MAX = (45 * Math.PI) / 180`, from part_004. -/
noncomputable def PITCH_MAX : ℝ := 45 * Real.pi / 180

/-- Source `ORBIT_MAX_YAW_PER_FRAME = 0.04` (radians), from part_004. -/
noncomputable def ORBIT_MAX_YAW_PER_FRAME : ℝ := 0.04

/-- Source `ORBIT_MAX_PITCH_PER_FRAME = 0.04` (radians), from part_004. -/
noncomputable def ORBIT_MAX_PITCH_PER_FRAME : ℝ := 0.04

/-- Source `DOLLY_MAX_PER_FRAME = 0.15`, from part_004. -/
noncomputable def DOLLY_MAX_PER_FRAME : ℝ := 0.15

/-- The camera rig orientation: `cameraRig.rotation.y` (yaw) and
`cameraRig.rotation.x` (pitch); both start at 0. -/
structure CameraRig where
  yaw : ℝ
  pitch : ℝ

/-- Source `Math.max(lo, Math.min(hi, x))`, the clamp idiom of part_004. -/
noncomputable def clampR (lo hi x : ℝ) : ℝ := max lo (min hi x)

/--
`DreamRenderer.orbitCamera` (part_004): the incoming deltas are first
clamped to the per-frame rate limits, then the resulting absolute angles
are clamped to the yaw/pitch ranges.
-/
noncomputable def orbitCamera (s : CameraRig) (yaw pitch : ℝ) : CameraRig :=
  let clampedYaw := clampR (-ORBIT_MAX_YAW_PER_FRAME) ORBIT_MAX_YAW_PER_FRAME yaw
  let clampedPitch := clampR (-ORBIT_MAX_PITCH_PER_FRAME) ORBIT_MAX_PITCH_PER_FRAME pitch
  { yaw := clampR YAW_MIN YAW_MAX (s.yaw + clampedYaw)
    pitch := clampR PITCH_MIN PITCH_MAX (s.pitch + clampedPitch) }

/-- A sequence of `orbitCamera` calls, each with a (yawDelta, pitchDelta). -/
noncomputable def orbitRun (s : CameraRig) (calls : List (ℝ × ℝ)) : CameraRig :=
  calls.foldl (fun st c => orbitCamera st c.1 c.2) s

/-- The rig range invariant: yaw within [−85°, 85°], pitch within [−45°, 45°]. -/
def InRange (s : CameraRig) : Prop :=
  YAW_MIN ≤ s.yaw ∧ s.yaw ≤ YAW_MAX ∧ PITCH_MIN ≤ s.pitch ∧ s.pitch ≤ PITCH_MAX

end CameraRigM

namespace Picking

/--
One child of `movingWorld` as seen by `findClosestObjectAtScreenPoint`
(part_004): its `userData.id` (children without an id are skipped) and the
result of `getWorldPosition(...).project(camera)` — the camera projection
itself is the external three.js library, so the projected NDC position is
carried as data.
-/
structure ScreenChild where
  objId : Option String
  ndcX : ℚ
  ndcY : ℚ
  deriving DecidableEq, Repr

/-- Squared NDC distance `dx*dx + dy*dy` from a child to the target point. -/
def distSq (tx ty : ℚ) (c : ScreenChild) : ℚ :=
  (c.ndcX - tx) ^ 2 + (c.ndcY - ty) ^ 2

/-- The Euclidean NDC distance corresponding to `distSq`. -/
noncomputable def ndcDist (tx ty : ℚ) (c : ScreenChild) : ℝ :=
  Real.sqrt ((distSq tx ty c : ℚ) : ℝ)

/--
The scan loop of `findClosestObjectAtScreenPoint` (part_004): `best` holds
`(bestId, bestDistSq)`; `none` plays the role of the initial
`bestDistSq = Infinity` state, and only a strictly smaller squared distance
replaces the current best.
-/
def pickLoop (tx ty : ℚ) : List ScreenChild → Option (String × ℚ) → Option (String × ℚ)
  | [], best => best
  | c :: rest, best =>
    match c.objId with
    | none => pickLoop tx ty rest best
    | some i =>
      let d2 := distSq tx ty c
      match best with
      | none => pickLoop tx ty rest (some (i, d2))
      | some (bi, bd) =>
        if d2 < bd then pickLoop tx ty rest (some (i, d2))
        else pickLoop tx ty rest (some (bi, bd))

/--
`DreamRenderer.findClosestObjectAtScreenPoint` (part_004): `none` when
`movingWorld` has no children; otherwise the target is mapped into NDC
(`x*2-1`, `1-y*2`, y up) and the child with minimal squared NDC distance
wins.
-/
def findClosestObjectAtScreenPoint (children : List ScreenChild) (nx ny : ℚ) : Option String :=
  if children.isEmpty then none
  else (pickLoop (nx * 2 - 1) (1 - ny * 2) children none).map Prod.fst

end Picking

namespace Env

/--
One sky or terrain material/mesh of part_004: its current `opacity`, whether
`dispose()` has been called on it, and whether it is still a child of
`worldGroup`.
-/
structure FadeMat where
  opacity : ℚ
  disposed : Bool
  inScene : Bool
  deriving DecidableEq, Repr

/--
The environment-crossfade state of `DreamRenderer` (part_004).  Every
sky/terrain mesh ever created is tracked (indexed by allocation order), so
that "removed from the scene" and "disposed" are observable even for meshes
whose reference the renderer dropped.
-/
structure EnvState where
  meshes : ℕ → FadeMat
  nextId : ℕ
  sky : Option ℕ
  terrain : Option ℕ
  lastSky : Option ℕ
  lastTerrain : Option ℕ
  textureFadeProgress : ℚ

/-- Source `TEXTURE_FADE_DURATION = 2.5` seconds, from part_004. -/
def TEXTURE_FADE_DURATION : ℚ := 5/2

/-- Pointwise update of the mesh store. -/
def updMesh (f : ℕ → FadeMat) (i : ℕ) (g : FadeMat → FadeMat) : ℕ → FadeMat :=
  fun k => if k = i then g (f k) else f k

/-- Set the opacity of a material. -/
def setOpac (v : ℚ) (mm : FadeMat) : FadeMat := { mm with opacity := v }

/-- Set the opacity of an optionally-present material (no-op when absent). -/
def setOptOpacity (f : ℕ → FadeMat) (oi : Option ℕ) (v : ℚ) : ℕ → FadeMat :=
  match oi with
  | some i => updMesh f i (setOpac v)
  | none => f

/-- Source `worldGroup.remove(mesh)` followed by disposing its geometry/material. -/
def removeDispose (mm : FadeMat) : FadeMat := { mm with disposed := true, inScene := false }

/-- The sky-promotion step of `setSkyAndTerrain` (part_004): if a sky
exists, it becomes `lastSky` with opacity pinned to 1 — overwriting any
prior `lastSky` reference without touching that mesh. -/
def promoteSky (s : EnvState) : EnvState :=
  match s.sky with
  | some i => { s with lastSky := some i, meshes := updMesh s.meshes i (setOpac 1) }
  | none => s

/-- Creation of the new sky mesh at opacity 0, added to `worldGroup`. -/
def addSky (s : EnvState) : EnvState :=
  { s with
    meshes := updMesh s.meshes s.nextId (fun _ => ⟨0, false, true⟩)
    sky := some s.nextId
    nextId := s.nextId + 1 }

/-- The terrain-promotion step of `setSkyAndTerrain` (part_004). -/
def promoteTerrain (s : EnvState) : EnvState :=
  match s.terrain with
  | some i => { s with lastTerrain := some i, meshes := updMesh s.meshes i (setOpac 1) }
  | none => s

/-- Creation of the new terrain mesh at opacity 0, added to `worldGroup`. -/
def addTerrain (s : EnvState) : EnvState :=
  { s with
    meshes := updMesh s.meshes s.nextId (fun _ => ⟨0, false, true⟩)
    terrain := some s.nextId
    nextId := s.nextId + 1 }

/--
`DreamRenderer.setSkyAndTerrain` (part_004), in source order: reset the
fade progress, promote the current sky and create the new one, then the
same for the terrain.
-/
def setSkyAndTerrain (s : EnvState) : EnvState :=
  addTerrain (promoteTerrain (addSky (promoteSky { s with textureFadeProgress := 0 })))

/--
The crossfade block of `animate` (part_004): while a transition is active,
advance the progress by `delta / TEXTURE_FADE_DURATION` (capped at 1),
apply the smoothstep ease to the new pair and its complement to the
previous pair, and on completion remove and dispose the previous pair and
clear its references.
-/
def fadeStep (delta : ℚ) (s : EnvState) : EnvState :=
  if s.textureFadeProgress < 1 ∧
      (s.sky.isSome ∨ s.terrain.isSome ∨ s.lastSky.isSome ∨ s.lastTerrain.isSome) then
    let t := min 1 (s.textureFadeProgress + delta / TEXTURE_FADE_DURATION)
    let ease := t * t * (3 - 2 * t)
    let ms := setOptOpacity s.meshes s.sky ease
    let ms1 := setOptOpacity ms s.terrain ease
    let ms2 := setOptOpacity ms1 s.lastSky (1 - ease)
    let ms3 := setOptOpacity ms2 s.lastTerrain (1 - ease)
    let s1 := { s with textureFadeProgress := t, meshes := ms3 }
    if 1 ≤ t then
      let s2 :=
        match s1.lastSky with
        | some i => { s1 with meshes := updMesh s1.meshes i removeDispose, lastSky := none }
        | none => s1
      match s2.lastTerrain with
      | some i => { s2 with meshes := updMesh s2.meshes i removeDispose, lastTerrain := none }
      | none => s2
    else s1
  else s

/-- A freshly constructed `DreamRenderer`: no environment meshes yet. -/
def mkEnv : EnvState :=
  { meshes := fun _ => ⟨0, false, false⟩
    nextId := 0
    sky := none
    terrain := none
    lastSky := none
    lastTerrain := none
    textureFadeProgress := 0 }

end Env

namespace Dispatch

/-- A normalized 2D point. -/
structure Vec2 where
  x : ℚ
  y : ℚ
  deriving DecidableEq, Repr

/-- Source `HandStats` from `src/types.ts`: the per-frame summary of one hand. -/
structure HandStats where
  gesture : String
  palmSize : ℚ
  center : Vec2
  landmarks : List Vec2
  distance : ℚ
  handedness : String
  deriving DecidableEq, Repr

/-- The `{ left?, right? }` input of `CameraActionManager.process`. -/
structure HandStatsInput where
  left : Option HandStats
  right : Option HandStats
  deriving DecidableEq, Repr

/-- The declared hand of a `CameraAction` (`left`, `right` or `both`). -/
inductive Hand where
  | left
  | right
  | both
  deriving DecidableEq, Repr

/-- The closed set of built-in actions of `defaultCameraActions.ts`. -/
inductive CameraAction where
  | orbitCameraAction
  | dollyCameraAction
  | pinchTranslateAction
  | fistRotateAction
  | palmReleaseAction
  | twoHandPinchScaleAction
  deriving DecidableEq, Repr

/-- The `hand` field of each action class. -/
def CameraAction.hand : CameraAction → Hand
  | .orbitCameraAction => .right
  | .dollyCameraAction => .right
  | .pinchTranslateAction => .left
  | .fistRotateAction => .left
  | .palmReleaseAction => .left
  | .twoHandPinchScaleAction => .both

/-- The `gesture` field of each action class. -/
def CameraAction.gesture : CameraAction → String
  | .orbitCameraAction => "Open Palm"
  | .dollyCameraAction => "Fist"
  | .pinchTranslateAction => "Pinch"
  | .fistRotateAction => "Fist"
  | .palmReleaseAction => "Open Palm"
  | .twoHandPinchScaleAction => "Pinch+Pinch"

/-- Source `POINT_SIZE = 0.04`, from part_004. -/
def POINT_SIZE : ℚ := 0.04

/-- Source `HIGHLIGHT_SIZE_MULT = 1.5`, from part_004. -/
def HIGHLIGHT_SIZE_MULT : ℚ := 1.5

/-- Source `TRANSLATION_SPEED = 100`, from defaultCameraActions.ts. -/
def TRANSLATION_SPEED : ℝ := 100

/--
One registered object as the dispatcher-facing renderer API sees it: its
id, transform (position / yaw rotation / scale, real-valued because two-hand
scaling and fist rotation feed irrational factors into them), its current
camera-projected NDC position (carried as data, the projection itself being
three.js), and the point size of its material (the selection highlight).
-/
structure RObject where
  id : String
  posX : ℝ
  posY : ℝ
  posZ : ℝ
  rotY : ℝ
  scaleX : ℝ
  scaleY : ℝ
  scaleZ : ℝ
  ndcX : ℚ
  ndcY : ℚ
  pointSize : ℚ

/-- The renderer state reachable from `CameraActionManager.process`. -/
structure RendererState where
  objects : List RObject
  selectedObjectId : Option String
  rig : CameraRigM.CameraRig
  dollyOffset : ℝ

/-- Source `DreamRenderer.findClosestObjectAtScreenPoint` over the registered
objects (all `movingWorld` children carry a `userData.id`). -/
def RendererState.findClosestObjectAtScreenPoint (r : RendererState) (nx ny : ℚ) :
    Option String :=
  Picking.findClosestObjectAtScreenPoint
    (r.objects.map fun o => ⟨some o.id, o.ndcX, o.ndcY⟩) nx ny

/--
`DreamRenderer.setSelectedObjectId` (part_004): no-op when unchanged;
otherwise the point size of the previously selected object falls back to
the default and that of the newly selected object is enlarged.
-/
def RendererState.setSelectedObjectId (r : RendererState) (target : Option String) :
    RendererState :=
  if r.selectedObjectId = target then r
  else
    let objs1 :=
      match r.selectedObjectId with
      | some prev => r.objects.map fun o =>
          if o.id = prev then { o with pointSize := POINT_SIZE } else o
      | none => r.objects
    let objs2 :=
      match target with
      | some i => objs1.map fun o =>
          if o.id = i then { o with pointSize := POINT_SIZE * HIGHLIGHT_SIZE_MULT } else o
      | none => objs1
    { r with selectedObjectId := target, objects := objs2 }

/-- Source `DreamRenderer.getSelectedObjectId`. -/
def RendererState.getSelectedObjectId (r : RendererState) : Option String :=
  r.selectedObjectId

/-- The `value` argument of `manipulateObject`, per `action` kind. -/
inductive ManipValue where
  | translate (x y : ℝ)
  | rotate (v : ℝ)
  | scaleBy (v : ℝ)

/-- The per-object effect of `manipulateObject` (part_004): translate adds
to x/y, rotate adds to `rotation.y`, scale is `scale.multiplyScalar`. -/
def applyManip (v : ManipValue) (o : RObject) : RObject :=
  match v with
  | .translate dx dy => { o with posX := o.posX + dx, posY := o.posY + dy }
  | .rotate dv => { o with rotY := o.rotY + dv }
  | .scaleBy m => { o with scaleX := o.scaleX * m, scaleY := o.scaleY * m, scaleZ := o.scaleZ * m }

/-- Source `DreamRenderer.manipulateObject` (part_004): no-op for an unknown id. -/
def RendererState.manipulateObject (r : RendererState) (id : String) (v : ManipValue) :
    RendererState :=
  if r.objects.any fun o => o.id = id then
    { r with objects := r.objects.map fun o => if o.id = id then applyManip v o else o }
  else r

/-- Source `DreamRenderer.orbitCamera`, lifted to the renderer state. -/
noncomputable def RendererState.orbitCamera (r : RendererState) (yaw pitch : ℝ) :
    RendererState :=
  { r with rig := CameraRigM.orbitCamera r.rig yaw pitch }

/--
`DreamRenderer.dollyCamera` (part_004): the delta is clamped to
`DOLLY_MAX_PER_FRAME` and the rig moves along the (unit) view direction;
the offset along that direction is modelled as a scalar.
-/
noncomputable def RendererState.dollyCamera (r : RendererState) (delta : ℝ) : RendererState :=
  { r with
    dollyOffset := r.dollyOffset +
      CameraRigM.clampR (-CameraRigM.DOLLY_MAX_PER_FRAME) CameraRigM.DOLLY_MAX_PER_FRAME delta }

/-- Source `Math.hypot`. -/
noncomputable def hypot (x y : ℝ) : ℝ := Real.sqrt (x ^ 2 + y ^ 2)

/-- Source `Math.atan2`. -/
noncomputable def atan2 (y x : ℝ) : ℝ :=
  if 0 < x then Real.arctan (y / x)
  else if x < 0 then
    if 0 ≤ y then Real.arctan (y / x) + Real.pi else Real.arctan (y / x) - Real.pi
  else
    if 0 < y then Real.pi / 2 else if y < 0 then -(Real.pi / 2) else 0

/-- Source `CameraActionContext` (`CameraAction.ts`), minus the renderer and scene
references, which the model passes separately (the actions never read the
scene graph). -/
structure CameraActionContext where
  hand : HandStats
  delta : Vec2
  lastCenter : Vec2
  leftHand : Option HandStats
  rightHand : Option HandStats
  lastTwoHandDistance : Option ℝ
  lastLeftAngle : Option ℝ

/-- Source `execute` of each built-in action (defaultCameraActions.ts). -/
noncomputable def CameraAction.execute (a : CameraAction) (ctx : CameraActionContext)
    (r : RendererState) : RendererState :=
  match a with
  | .orbitCameraAction =>
    r.orbitCamera (-(ctx.delta.x : ℝ) * 4) (-(ctx.delta.y : ℝ) * 4)
  | .dollyCameraAction =>
    r.dollyCamera ((ctx.delta.y : ℝ) * 30)
  | .pinchTranslateAction =>
    match r.getSelectedObjectId with
    | none => r
    | some id =>
      r.manipulateObject id
        (.translate ((ctx.delta.x : ℝ) * TRANSLATION_SPEED) (-(ctx.delta.y : ℝ) * TRANSLATION_SPEED))
  | .fistRotateAction =>
    match r.getSelectedObjectId, ctx.lastLeftAngle with
    | some id, some lastAngle =>
      match ctx.hand.landmarks.get? 8, ctx.hand.landmarks.get? 0 with
      | some p8, some p0 =>
        let currentAngle := atan2 ((p8.y : ℝ) - (p0.y : ℝ)) ((p8.x : ℝ) - (p0.x : ℝ))
        let d1 := currentAngle - lastAngle
        let d2 := if Real.pi < d1 then d1 - 2 * Real.pi else d1
        let d3 := if d2 < -Real.pi then d2 + 2 * Real.pi else d2
        r.manipulateObject id (.rotate (d3 * 2))
      | _, _ => r
    | _, _ => r
  | .palmReleaseAction => r
  | .twoHandPinchScaleAction =>
    match r.getSelectedObjectId, ctx.leftHand, ctx.rightHand, ctx.lastTwoHandDistance with
    | some id, some lh, some rh, some lastDist =>
      if lastDist ≤ 0 then r
      else
        let dist := hypot ((rh.center.x : ℝ) - (lh.center.x : ℝ))
          ((rh.center.y : ℝ) - (lh.center.y : ℝ))
        let scaleFactor := dist / lastDist
        let clamped := max 0.7 (min 1.4 scaleFactor)
        r.manipulateObject id (.scaleBy clamped)
    | _, _, _, _ => r

/--
The cross-frame state of `CameraActionManager`
(`lastLeft` / `lastRight` / `lastTwoHandDistance` / `lastLeftAngle`, all
initialized to zero) together with the registered actions.
-/
structure CameraActionManager where
  actions : List CameraAction
  lastLeft : Vec2
  lastRight : Vec2
  lastTwoHandDistance : ℝ
  lastLeftAngle : ℝ

/--
`CameraActionManager.runMatching`: run every registered action whose
declared hand and gesture match, in registration order, threading the
renderer state; the returned list records the actions that executed.
-/
noncomputable def runMatching (h : Hand) (handData : HandStats) (ctx : CameraActionContext)
    (acts : List CameraAction) (r : RendererState) : RendererState × List CameraAction :=
  acts.foldl
    (fun acc a =>
      if a.hand = h ∧ a.gesture = handData.gesture then (a.execute ctx acc.1, acc.2 ++ [a])
      else acc)
    (r, [])

/--
The two-hand loop of `process`: actions declared for hand `both` run when both
gestures are `Pinch` and the gesture of the action is `Pinch+Pinch`.
-/
noncomputable def runBoth (acts : List CameraAction) (l rt : HandStats)
    (ctx : CameraActionContext) (r : RendererState) : RendererState × List CameraAction :=
  acts.foldl
    (fun acc a =>
      if a.hand = Hand.both ∧ l.gesture = "Pinch" ∧ rt.gesture = "Pinch" ∧
          a.gesture = "Pinch+Pinch" then
        (a.execute ctx acc.1, acc.2 ++ [a])
      else acc)
    (r, [])

/--
`CameraActionManager.process` (CameraActionManager.ts), in source order:
highlight update from the left hand; the two-hand block (computing the new
inter-hand distance, running both-hand actions against the previous one,
or resetting the stored distance to zero when a hand is missing); the
left-hand manipulation block (delta against `lastLeft`, then updating
`lastLeft` and the stored pointing angle); the right-hand navigation block,
guarded by `!manipulationMode`; and the unconditional `lastRight` refresh.
Returns the new manager state, the new renderer state, and the list of
actions that executed.
-/
noncomputable def process (m : CameraActionManager) (handStats : HandStatsInput)
    (r : RendererState) : CameraActionManager × RendererState × List CameraAction :=
  let left := handStats.left
  let right := handStats.right
  let manipulationMode := left.isSome
  let r1 :=
    match left with
    | some l => r.setSelectedObjectId (r.findClosestObjectAtScreenPoint l.center.x l.center.y)
    | none => r.setSelectedObjectId none
  let step2 :=
    match left, right with
    | some l, some rt =>
      let dist := hypot ((rt.center.x : ℝ) - (l.center.x : ℝ)) ((rt.center.y : ℝ) - (l.center.y : ℝ))
      let ctx : CameraActionContext :=
        { hand := l, delta := ⟨0, 0⟩, lastCenter := m.lastLeft
          leftHand := some l, rightHand := some rt
          lastTwoHandDistance := some m.lastTwoHandDistance, lastLeftAngle := none }
      let m1 := { m with lastTwoHandDistance := dist }
      let rb := runBoth m1.actions l rt ctx r1
      (m1, rb.1, rb.2)
    | _, _ => ({ m with lastTwoHandDistance := 0 }, r1, ([] : List CameraAction))
  let m2 := step2.1
  let r2 := step2.2.1
  let step3 :=
    match left with
    | some l =>
      let delta : Vec2 := ⟨l.center.x - m2.lastLeft.x, l.center.y - m2.lastLeft.y⟩
      let ctx : CameraActionContext :=
        { hand := l, delta := delta, lastCenter := m2.lastLeft
          leftHand := left, rightHand := right
          lastTwoHandDistance := some m2.lastTwoHandDistance
          lastLeftAngle := some m2.lastLeftAngle }
      let rm := runMatching Hand.left l ctx m2.actions r2
      let newAngle :=
        match l.landmarks.get? 8, l.landmarks.get? 0 with
        | some p8, some p0 => atan2 ((p8.y : ℝ) - (p0.y : ℝ)) ((p8.x : ℝ) - (p0.x : ℝ))
        | _, _ => m2.lastLeftAngle
      (({ m2 with lastLeft := l.center, lastLeftAngle := newAngle } : CameraActionManager),
        rm.1, rm.2)
    | none => (m2, r2, ([] : List CameraAction))
  let m3 := step3.1
  let r3 := step3.2.1
  let step4 :=
    match right with
    | some rt =>
      if manipulationMode then (r3, ([] : List CameraAction))
      else
        let delta : Vec2 := ⟨rt.center.x - m3.lastRight.x, rt.center.y - m3.lastRight.y⟩
        let ctx : CameraActionContext :=
          { hand := rt, delta := delta, lastCenter := m3.lastRight
            leftHand := left, rightHand := right
            lastTwoHandDistance := some m3.lastTwoHandDistance, lastLeftAngle := none }
        runMatching Hand.right rt ctx m3.actions r3
    | none => (r3, ([] : List CameraAction))
  let m4 :=
    match right with
    | some rt => { m3 with lastRight := rt.center }
    | none => m3
  (m4, step4.1, step2.2.2 ++ step3.2.2 ++ step4.2)

/-- The transform (position, yaw, scale) of an object — the data
`manipulateObject`, and nothing else, mutates. -/
def transformOf (o : RObject) : ℝ × ℝ × ℝ × ℝ × ℝ × ℝ × ℝ :=
  (o.posX, o.posY, o.posZ, o.rotY, o.scaleX, o.scaleY, o.scaleZ)

end Dispatch

namespace Lifecycle

theorem floor_toNat_le_of_le {q : ℚ} {n : ℕ} (h : q ≤ (n : ℚ)) : (⌊q⌋).toNat ≤ n := by
  have h1 : ⌊q⌋ ≤ (n : ℤ) := by
    have h2 := Int.floor_le_floor h
    simpa using h2
  exact Int.toNat_le.mpr h1

theorem inv_materializeStep {delta : ℚ} {s : ObjState} (h0 : 0 ≤ delta) (h : ObjInv s) :
    ObjInv (materializeStep delta s) := by
  obtain ⟨h1, h2, h3, h4, h5⟩ := h
  unfold materializeStep
  split
  · rename_i hc
    refine ⟨?_, ?_, ?_, ?_, ?_⟩
    · dsimp only
      refine le_min (by positivity) ?_
      have hr : 0 ≤ (s.targetPoints : ℚ) / MATERIALIZE_DURATION * delta := by
        have hq : (0:ℚ) ≤ (s.targetPoints : ℚ) / MATERIALIZE_DURATION :=
          div_nonneg (by positivity) (by norm_num [MATERIALIZE_DURATION])
        exact mul_nonneg hq h0
      linarith
    · exact min_le_left _ _
    · dsimp only
      exact floor_toNat_le_of_le (min_le_left _ _)
    · exact h4
    · exact h5
  · exact ⟨h1, h2, h3, h4, h5⟩

theorem inv_startDiffusion {now : ℚ} {s : ObjState} (h : ObjInv s) :
    ObjInv (startDiffusion now s) := by
  obtain ⟨h1, h2, h3, h4, h5⟩ := h
  have hk0 : ((⌊(1 - DIFFUSE_FRACTION) * (s.targetPoints : ℚ)⌋).toNat) ≤ s.targetPoints := by
    refine floor_toNat_le_of_le ?_
    have hTpos : (0:ℚ) ≤ (s.targetPoints : ℚ) := by positivity
    have hmul : (1 - DIFFUSE_FRACTION) * (s.targetPoints : ℚ) ≤ 1 * (s.targetPoints : ℚ) := by
      refine mul_le_mul_of_nonneg_right ?_ hTpos
      norm_num [DIFFUSE_FRACTION]
    linarith
  unfold startDiffusion
  split
  · refine ⟨h1, h2, h3, ?_, h5⟩
    intro k1 hk1
    have hk2 := Option.some.inj hk1
    exact hk2 ▸ hk0
  · exact ⟨h1, h2, h3, h4, h5⟩

theorem inv_finishDiffusion {now : ℚ} {s : ObjState} (h : ObjInv s) :
    ObjInv (finishDiffusion now s) := by
  obtain ⟨h1, h2, h3, h4, h5⟩ := h
  unfold finishDiffusion
  rcases hd : s.diffusionPhaseStartedAt with _ | t <;>
    rcases hk : s.diffusingStartIndex with _ | k <;>
    simp only [hd, hk]
  · exact ⟨h1, h2, h3, h4, h5⟩
  · exact ⟨h1, h2, h3, h4, h5⟩
  · exact ⟨h1, h2, h3, h4, h5⟩
  · split
    · refine ⟨h1, h2, h4 k hk, ?_, h5⟩
      intro k1 hk1
      exact absurd hk1 (by simp)
    · exact ⟨h1, h2, h3, h4, h5⟩

theorem inv_diffuseStep {now : ℚ} {s : ObjState} (h : ObjInv s) :
    ObjInv (diffuseStep now s) := by
  unfold diffuseStep
  split
  · exact h
  · exact inv_finishDiffusion (inv_startDiffusion h)

theorem inv_removalDecrement {s s1 : ObjState} (h : ObjInv s)
    (hr : removalDecrement s = some s1) : ObjInv s1 := by
  obtain ⟨h1, h2, h3, h4, h5⟩ := h
  unfold removalDecrement at hr
  dsimp only at hr
  split at hr
  · exact absurd hr (by simp)
  · have hv : (s.visiblePoints.getD s.targetPoints) ≤ s.targetPoints := by
      cases hvp : s.visiblePoints with
      | none => simp
      | some v => simpa using h5 v hvp
    have hs1 := Option.some.inj hr
    subst hs1
    refine ⟨h1, h2, ?_, h4, ?_⟩
    · exact le_trans (Nat.sub_le _ _) hv
    · intro v hv1
      simp at hv1
      subst hv1
      exact le_trans (Nat.sub_le _ _) hv

theorem inv_removalStep {now : ℚ} {s s1 : ObjState} (h : ObjInv s)
    (hr : removalStep now s = some s1) : ObjInv s1 := by
  obtain ⟨h1, h2, h3, h4, h5⟩ := h
  unfold removalStep at hr
  split at hr
  · split at hr
    · exact Option.some.inj hr ▸ ⟨h1, h2, h3, h4, h5⟩
    · refine inv_removalDecrement
        (s := { s with removalStartedAt := some now, visiblePoints := some s.drawCount })
        ⟨h1, h2, h3, h4, ?_⟩ hr
      intro v hv
      have hv2 : s.drawCount = v := Option.some.inj hv
      exact hv2 ▸ h3
  · exact inv_removalDecrement ⟨h1, h2, h3, h4, h5⟩ hr

theorem inv_stepObj {now delta : ℚ} {s s1 : ObjState} (h0 : 0 ≤ delta) (h : ObjInv s)
    (hr : stepObj now delta s = some s1) : ObjInv s1 :=
  inv_removalStep (inv_diffuseStep (inv_materializeStep h0 h)) hr

/--
Claim C7.  For every object, across any sequence of `animate` frames with
nonnegative frame times, the revealed point count `currentPoints` stays in
`[0, targetPoints]` and the drawn range `drawCount` stays in
`[0, targetPoints]` (the lower bounds being definitional for `drawCount`):
the materialize phase never raises the count above the target and the
removal phase never lowers it below zero.  `ObjInv` also carries the
auxiliary bounds on the stored diffusion index and removal counter; every
state `createPointCloudObject` produces satisfies it.
-/
theorem visible_count_invariant (t : ℚ) (deltas : List ℚ) (s s1 : ObjState)
    (hd : ∀ d ∈ deltas, 0 ≤ d) (h : ObjInv s) (hr : runFrames t deltas s = some s1) :
    0 ≤ s1.currentPoints ∧ s1.currentPoints ≤ (s1.targetPoints : ℚ) ∧
      s1.drawCount ≤ s1.targetPoints := by
  have key : ∀ deltas t s, (∀ d ∈ deltas, 0 ≤ d) → ObjInv s →
      ∀ s1, runFrames t deltas s = some s1 → ObjInv s1 := by
    intro ds
    induction ds with
    | nil =>
      intro t s _ hs s1 hr
      unfold runFrames at hr
      exact Option.some.inj hr ▸ hs
    | cons d rest ih =>
      intro t s hd hs s1 hr
      unfold runFrames at hr
      rcases hstep : stepObj (t + d) d s with _ | s2
      · rw [hstep] at hr
        exact absurd hr (by simp)
      · rw [hstep] at hr
        have hs2 := inv_stepObj (hd d (by simp)) hs hstep
        exact ih (t + d) s2 (fun x hx => hd x (by simp [hx])) hs2 s1 hr
  have h1 := key deltas t s hd h s1 hr
  exact ⟨h1.1, h1.2.1, h1.2.2.1⟩

theorem materializeStep_preserves (delta : ℚ) (s : ObjState) :
    (materializeStep delta s).removalStartedAt = s.removalStartedAt ∧
      (materializeStep delta s).loadedAt = s.loadedAt ∧
      (materializeStep delta s).lifetime = s.lifetime ∧
      (materializeStep delta s).targetPoints = s.targetPoints := by
  unfold materializeStep
  split <;> simp

theorem startDiffusion_preserves (now : ℚ) (s : ObjState) :
    (startDiffusion now s).currentPoints = s.currentPoints ∧
      (startDiffusion now s).removalStartedAt = s.removalStartedAt ∧
      (startDiffusion now s).loadedAt = s.loadedAt ∧
      (startDiffusion now s).lifetime = s.lifetime := by
  unfold startDiffusion
  split <;> simp

theorem finishDiffusion_preserves (now : ℚ) (s : ObjState) :
    (finishDiffusion now s).currentPoints = s.currentPoints ∧
      (finishDiffusion now s).removalStartedAt = s.removalStartedAt ∧
      (finishDiffusion now s).loadedAt = s.loadedAt ∧
      (finishDiffusion now s).lifetime = s.lifetime := by
  unfold finishDiffusion
  rcases s.diffusionPhaseStartedAt with _ | t <;> rcases s.diffusingStartIndex with _ | k <;>
    simp only []
  · simp
  · simp
  · simp
  · split <;> simp

theorem diffuseStep_preserves (now : ℚ) (s : ObjState) :
    (diffuseStep now s).currentPoints = s.currentPoints ∧
      (diffuseStep now s).removalStartedAt = s.removalStartedAt ∧
      (diffuseStep now s).loadedAt = s.loadedAt ∧
      (diffuseStep now s).lifetime = s.lifetime := by
  unfold diffuseStep
  split
  · exact ⟨rfl, rfl, rfl, rfl⟩
  · obtain ⟨f1, f2, f3, f4⟩ := finishDiffusion_preserves now (startDiffusion now s)
    obtain ⟨g1, g2, g3, g4⟩ := startDiffusion_preserves now s
    exact ⟨f1.trans g1, f2.trans g2, f3.trans g3, f4.trans g4⟩

theorem removalStep_not_due {now : ℚ} {s : ObjState} (h1 : s.removalStartedAt = none)
    (h2 : now - s.loadedAt < s.lifetime) : removalStep now s = some s := by
  unfold removalStep
  rw [h1]
  simp [h2]

theorem removalStep_some_currentPoints {now : ℚ} {s s1 : ObjState}
    (h : removalStep now s = some s1) : s1.currentPoints = s.currentPoints := by
  unfold removalStep at h
  have hdec : ∀ s2 : ObjState, removalDecrement s2 = some s1 →
      s1.currentPoints = s2.currentPoints := by
    intro s2 hd
    unfold removalDecrement at hd
    dsimp only at hd
    split at hd
    · exact absurd hd (by simp)
    · exact (Option.some.inj hd) ▸ rfl
  split at h
  · split at h
    · exact (Option.some.inj h) ▸ rfl
    · have hgoal := hdec _ h
      exact hgoal
  · have hgoal := hdec _ h
    exact hgoal

theorem materializeStep_mono {delta : ℚ} (h0 : 0 ≤ delta) (s : ObjState) :
    s.currentPoints ≤ (materializeStep delta s).currentPoints := by
  unfold materializeStep
  split
  · rename_i hc
    dsimp only
    refine le_min (le_of_lt hc) ?_
    have hq : (0:ℚ) ≤ (s.targetPoints : ℚ) / MATERIALIZE_DURATION :=
      div_nonneg (by positivity) (by norm_num [MATERIALIZE_DURATION])
    nlinarith
  · exact le_refl _

theorem stepObj_currentPoints_mono {now delta : ℚ} (h0 : 0 ≤ delta) {s s1 : ObjState}
    (h : stepObj now delta s = some s1) : s.currentPoints ≤ s1.currentPoints := by
  unfold stepObj at h
  have e1 := removalStep_some_currentPoints h
  have e2 := (diffuseStep_preserves now (materializeStep delta s)).1
  rw [e1, e2]
  exact materializeStep_mono h0 s

/--
Claim C8.  While the revealed count of an object is below its target (and neither
`restartMaterialize` nor removal intervenes), one `animate` frame increases
`currentPoints` by exactly `targetPoints / MATERIALIZE_DURATION * delta` —
the constant reveal rate — and a frame never decreases `currentPoints`;
concretely, a 1000-point object reaches `currentPoints = 500` (drawn range
500) after 5 simulated seconds of the 10-second materialize.
-/
theorem materialize_rate_and_monotone (s : ObjState) (now delta : ℚ) (h0 : 0 ≤ delta)
    (hc : s.currentPoints < (s.targetPoints : ℚ))
    (hfit : s.currentPoints + (s.targetPoints : ℚ) / MATERIALIZE_DURATION * delta ≤
      (s.targetPoints : ℚ))
    (hrem : s.removalStartedAt = none)
    (hage : now - s.loadedAt < s.lifetime) :
    (∃ s1, stepObj now delta s = some s1 ∧
        s1.currentPoints =
          s.currentPoints + (s.targetPoints : ℚ) / MATERIALIZE_DURATION * delta) ∧
      (∀ s2 s3, stepObj now delta s2 = some s3 → s2.currentPoints ≤ s3.currentPoints) ∧
      (runFrames 0 (List.replicate 5 1) (createPointCloudObject 0 (1/2) 1000)).map
          (fun s4 => (s4.currentPoints, s4.drawCount)) = some (500, 500) := by
  refine ⟨?_, ?_, ?_⟩
  · have hmat : (materializeStep delta s).currentPoints =
        s.currentPoints + (s.targetPoints : ℚ) / MATERIALIZE_DURATION * delta := by
      unfold materializeStep
      rw [if_pos hc]
      exact min_eq_right hfit
    obtain ⟨m1, m2, m3, m4⟩ := materializeStep_preserves delta s
    obtain ⟨d1, d2, d3, d4⟩ := diffuseStep_preserves now (materializeStep delta s)
    have hns : removalStep now (diffuseStep now (materializeStep delta s)) =
        some (diffuseStep now (materializeStep delta s)) := by
      refine removalStep_not_due ?_ ?_
      · rw [d2, m1, hrem]
      · rw [d3, m2, d4, m3]
        exact hage
    refine ⟨diffuseStep now (materializeStep delta s), hns, ?_⟩
    rw [d1, hmat]
  · intro s2 s3 h
    exact stepObj_currentPoints_mono h0 h
  · with_unfolding_all rfl

/-- C8 witness: the first frame of a fresh 1000-point object. -/
theorem materialize_rate_and_monotone_witness :
    (∃ s1, stepObj 1 1 (createPointCloudObject 0 (1/2) 1000) = some s1 ∧
        s1.currentPoints = (createPointCloudObject 0 (1/2) 1000).currentPoints +
          ((createPointCloudObject 0 (1/2) 1000).targetPoints : ℚ) / MATERIALIZE_DURATION * 1) ∧
      (∀ s2 s3, stepObj 1 1 s2 = some s3 → s2.currentPoints ≤ s3.currentPoints) ∧
      (runFrames 0 (List.replicate 5 1) (createPointCloudObject 0 (1/2) 1000)).map
          (fun s4 => (s4.currentPoints, s4.drawCount)) = some (500, 500) :=
  materialize_rate_and_monotone (createPointCloudObject 0 (1/2) 1000) 1 1
    (by norm_num) (by with_unfolding_all decide) (by with_unfolding_all decide)
    (by with_unfolding_all rfl) (by with_unfolding_all decide)

/--
Claim C4, code-bug evidence.  The diffusion phase does not run at most once
per materialize cycle: for a fresh 10-point object stepped one second at a
time, diffusion starts when the object settles at `now = 10`, completes and
clears its state at `now = 13` (draw range shrunk to 9 points), and — with
no `restartMaterialize` call in between (`runFrames` only performs `animate`
frames) — starts again at `now = 14`, because the settle condition still
holds while the cleared `diffusionPhaseStartedAt` again reads `none`.
-/
theorem diffusion_phase_restarts_after_completion :
    (runFrames 0 (List.replicate 10 1) (createPointCloudObject 0 (1/2) 10)).map
        (fun s => s.diffusionPhaseStartedAt) = some (some 10) ∧
      (runFrames 0 (List.replicate 13 1) (createPointCloudObject 0 (1/2) 10)).map
          (fun s => (s.diffusionPhaseStartedAt, s.diffusingStartIndex, s.drawCount)) =
        some (none, none, 9) ∧
      (runFrames 0 (List.replicate 14 1) (createPointCloudObject 0 (1/2) 10)).map
          (fun s => (s.diffusionPhaseStartedAt, s.diffusingStartIndex)) =
        some (some 14, some 9) := by
  refine ⟨?_, ?_, ?_⟩ <;> with_unfolding_all rfl

/--
Claim C3, code-bug evidence.  `addObjects` does not discard the previous
object set: with an object `"old"` already registered, loading a new list
containing only `"new"` leaves both in the registry (contradicting the
very doc comment of the function, "Clears existing objects", whose implementation
is commented out).  The rest of the contract holds: the selection is
cleared, and the newly loaded object starts its materialize phase at zero
visible points with a lifetime inside
`[OBJECT_LIFETIME_MIN, OBJECT_LIFETIME_MAX]`.
-/
theorem addObjects_retains_previous_objects :
    (addObjects ⟨[("old", createPointCloudObject 0 0 50)], some "old"⟩ 20
        [⟨"new", false, 100, 1/2⟩]).objects.map Prod.fst = ["old", "new"] ∧
      (addObjects ⟨[("old", createPointCloudObject 0 0 50)], some "old"⟩ 20
        [⟨"new", false, 100, 1/2⟩]).selectedObjectId = none ∧
      (∀ p ∈ (addObjects ⟨[("old", createPointCloudObject 0 0 50)], some "old"⟩ 20
          [⟨"new", false, 100, 1/2⟩]).objects, p.1 = "new" →
        p.2.currentPoints = 0 ∧ p.2.drawCount = 0 ∧
          OBJECT_LIFETIME_MIN ≤ p.2.lifetime ∧ p.2.lifetime ≤ OBJECT_LIFETIME_MAX) := by
  refine ⟨?_, ?_, ?_⟩
  · with_unfolding_all rfl
  · with_unfolding_all rfl
  · with_unfolding_all decide

/-- C7 witness: a 1000-point object run for two one-second frames. -/
theorem visible_count_invariant_witness :
    0 ≤ c7WitnessState.currentPoints ∧
      c7WitnessState.currentPoints ≤ (c7WitnessState.targetPoints : ℚ) ∧
      c7WitnessState.drawCount ≤ c7WitnessState.targetPoints :=
  visible_count_invariant 0 [1, 1] (createPointCloudObject 0 (1/2) 1000) c7WitnessState
    (by decide) (by with_unfolding_all decide) (by with_unfolding_all rfl)

end Lifecycle

namespace CameraRigM

theorem clampR_mem {lo hi : ℝ} (h : lo ≤ hi) (x : ℝ) :
    lo ≤ clampR lo hi x ∧ clampR lo hi x ≤ hi := by
  unfold clampR
  exact ⟨le_max_left _ _, max_le h (min_le_left _ _)⟩

theorem clampR_abs_le {r : ℝ} (h : 0 ≤ r) (x : ℝ) : |clampR (-r) r x| ≤ r := by
  unfold clampR
  rw [abs_le]
  constructor
  · exact le_max_left _ _
  · exact max_le (by linarith) (min_le_left _ _)

theorem abs_clampR_add_sub_le {lo hi a d : ℝ} (h1 : lo ≤ a) (h2 : a ≤ hi) :
    |clampR lo hi (a + d) - a| ≤ |d| := by
  unfold clampR
  rcases le_total (a + d) lo with hcase | hcase
  · rw [min_eq_right (le_trans hcase (le_trans h1 h2)), max_eq_left hcase, abs_le]
    constructor
    · have hd := neg_abs_le d
      linarith
    · have hd := abs_nonneg d
      linarith
  · rcases le_total (a + d) hi with hcase2 | hcase2
    · rw [min_eq_right hcase2, max_eq_right hcase]
      simp
    · rw [min_eq_left hcase2, max_eq_right (le_trans h1 h2), abs_le]
      constructor
      · have hd := abs_nonneg d
        linarith
      · have hd := le_abs_self d
        linarith

theorem yaw_min_le_max : YAW_MIN ≤ YAW_MAX := by
  unfold YAW_MIN YAW_MAX
  linarith [Real.pi_pos]

theorem pitch_min_le_max : PITCH_MIN ≤ PITCH_MAX := by
  unfold PITCH_MIN PITCH_MAX
  linarith [Real.pi_pos]

theorem orbitCamera_inRange {s : CameraRig} (_h : InRange s) (y p : ℝ) :
    InRange (orbitCamera s y p) := by
  obtain ⟨hy1, hy2⟩ := clampR_mem yaw_min_le_max
    (s.yaw + clampR (-ORBIT_MAX_YAW_PER_FRAME) ORBIT_MAX_YAW_PER_FRAME y)
  obtain ⟨hp1, hp2⟩ := clampR_mem pitch_min_le_max
    (s.pitch + clampR (-ORBIT_MAX_PITCH_PER_FRAME) ORBIT_MAX_PITCH_PER_FRAME p)
  exact ⟨hy1, hy2, hp1, hp2⟩

theorem orbitRun_inRange (calls : List (ℝ × ℝ)) :
    ∀ s : CameraRig, InRange s → InRange (orbitRun s calls) := by
  induction calls with
  | nil =>
    intro s hs
    simpa [orbitRun] using hs
  | cons c rest ih =>
    intro s hs
    have hstep : orbitRun s (c :: rest) = orbitRun (orbitCamera s c.1 c.2) rest := by
      simp [orbitRun]
    rw [hstep]
    exact ih _ (orbitCamera_inRange hs c.1 c.2)

/--
Claim C2.  From any in-range rig state, every sequence of `orbitCamera` calls
— however large the individual deltas — leaves the yaw in
`[YAW_MIN, YAW_MAX]` (±85°) and the pitch in `[PITCH_MIN, PITCH_MAX]`
(±45°); moreover a single call never moves the yaw or pitch by more than
the independent per-frame rate limits `ORBIT_MAX_YAW_PER_FRAME` /
`ORBIT_MAX_PITCH_PER_FRAME` (0.04 rad), because the incoming delta is
clamped to the rate limit before the absolute range clamp is applied.
-/
theorem orbit_range_and_rate_invariant (s : CameraRig) (calls : List (ℝ × ℝ)) (y p : ℝ)
    (h : InRange s) :
    InRange (orbitRun s calls) ∧
      |(orbitCamera s y p).yaw - s.yaw| ≤ ORBIT_MAX_YAW_PER_FRAME ∧
      |(orbitCamera s y p).pitch - s.pitch| ≤ ORBIT_MAX_PITCH_PER_FRAME := by
  obtain ⟨hy1, hy2, hp1, hp2⟩ := h
  refine ⟨orbitRun_inRange calls s ⟨hy1, hy2, hp1, hp2⟩, ?_, ?_⟩
  · have hb := abs_clampR_add_sub_le (d := clampR (-ORBIT_MAX_YAW_PER_FRAME)
      ORBIT_MAX_YAW_PER_FRAME y) hy1 hy2
    have hc := clampR_abs_le (r := ORBIT_MAX_YAW_PER_FRAME)
      (by norm_num [ORBIT_MAX_YAW_PER_FRAME]) y
    exact le_trans hb hc
  · have hb := abs_clampR_add_sub_le (d := clampR (-ORBIT_MAX_PITCH_PER_FRAME)
      ORBIT_MAX_PITCH_PER_FRAME p) hp1 hp2
    have hc := clampR_abs_le (r := ORBIT_MAX_PITCH_PER_FRAME)
      (by norm_num [ORBIT_MAX_PITCH_PER_FRAME]) p
    exact le_trans hb hc

/-- C2 witness: the zero rig hit with a huge single delta and a two-call
adversarial sequence. -/
theorem orbit_range_and_rate_invariant_witness :
    InRange (orbitRun ⟨0, 0⟩ [(100, -100), (-3, 3)]) ∧
      |(orbitCamera ⟨0, 0⟩ 100 (-100)).yaw - (⟨0, 0⟩ : CameraRig).yaw| ≤
        ORBIT_MAX_YAW_PER_FRAME ∧
      |(orbitCamera ⟨0, 0⟩ 100 (-100)).pitch - (⟨0, 0⟩ : CameraRig).pitch| ≤
        ORBIT_MAX_PITCH_PER_FRAME :=
  orbit_range_and_rate_invariant ⟨0, 0⟩ [(100, -100), (-3, 3)] 100 (-100)
    (by
      have hpi := Real.pi_pos
      refine ⟨?_, ?_, ?_, ?_⟩
      · show YAW_MIN ≤ 0
        unfold YAW_MIN
        linarith
      · show (0:ℝ) ≤ YAW_MAX
        unfold YAW_MAX
        positivity
      · show PITCH_MIN ≤ 0
        unfold PITCH_MIN
        linarith
      · show (0:ℝ) ≤ PITCH_MAX
        unfold PITCH_MAX
        positivity)

end CameraRigM

namespace Picking

theorem pickLoop_isSome (tx ty : ℚ) (l : List ScreenChild) :
    ∀ best : Option (String × ℚ), best.isSome ∨ (∃ c ∈ l, c.objId.isSome) →
      (pickLoop tx ty l best).isSome := by
  induction l with
  | nil =>
    intro best h
    rcases h with h | ⟨c, hc, _⟩
    · simpa [pickLoop] using h
    · simp at hc
  | cons c rest ih =>
    intro best h
    unfold pickLoop
    rcases hid : c.objId with _ | j
    · refine ih best ?_
      rcases h with h | ⟨c1, hc1, hs1⟩
      · exact Or.inl h
      · rcases List.mem_cons.mp hc1 with rfl | hmem
        · rw [hid] at hs1
          simp at hs1
        · exact Or.inr ⟨c1, hmem, hs1⟩
    · rcases best with _ | ⟨bi, bd⟩
      · exact ih _ (Or.inl rfl)
      · dsimp only
        split
        · exact ih _ (Or.inl rfl)
        · exact ih _ (Or.inl rfl)

theorem pickLoop_result (tx ty : ℚ) (l : List ScreenChild) :
    ∀ (best : Option (String × ℚ)) (i : String) (d : ℚ),
      pickLoop tx ty l best = some (i, d) →
      (best = some (i, d) ∨ ∃ c ∈ l, c.objId = some i ∧ d = distSq tx ty c) ∧
        (∀ b bd, best = some (b, bd) → d ≤ bd) ∧
        (∀ c ∈ l, ∀ j, c.objId = some j → d ≤ distSq tx ty c) := by
  induction l with
  | nil =>
    intro best i d h
    unfold pickLoop at h
    subst h
    refine ⟨Or.inl rfl, ?_, ?_⟩
    · intro b bd hb
      rw [(Prod.mk.injEq _ _ _ _).mp (Option.some.inj hb) |>.2]
    · intro c hc
      simp at hc
  | cons c rest ih =>
    intro best i d h
    unfold pickLoop at h
    rcases hid : c.objId with _ | j
    · rw [hid] at h
      obtain ⟨m1, m2, m3⟩ := ih best i d h
      refine ⟨?_, m2, ?_⟩
      · rcases m1 with m1 | ⟨c1, hc1, hm⟩
        · exact Or.inl m1
        · exact Or.inr ⟨c1, List.mem_cons_of_mem _ hc1, hm⟩
      · intro c1 hc1 j1 hj1
        rcases List.mem_cons.mp hc1 with rfl | hmem
        · rw [hid] at hj1
          simp at hj1
        · exact m3 c1 hmem j1 hj1
    · rw [hid] at h
      rcases best with _ | ⟨bi, bd⟩
      · simp only at h
        obtain ⟨m1, m2, m3⟩ := ih _ i d h
        have hd2 : d ≤ distSq tx ty c := by
          rcases m1 with m1 | _
          · have he := (Prod.mk.injEq _ _ _ _).mp (Option.some.inj m1)
            exact le_of_eq he.2.symm
          · exact m2 j (distSq tx ty c) rfl
        refine ⟨?_, ?_, ?_⟩
        · rcases m1 with m1 | ⟨c1, hc1, hm⟩
          · have he := (Prod.mk.injEq _ _ _ _).mp (Option.some.inj m1)
            exact Or.inr ⟨c, List.mem_cons_self _ _, he.1 ▸ hid, he.2.symm⟩
          · exact Or.inr ⟨c1, List.mem_cons_of_mem _ hc1, hm⟩
        · intro b bd hb
          simp at hb
        · intro c1 hc1 j1 hj1
          rcases List.mem_cons.mp hc1 with rfl | hmem
          · have hj2 := Option.some.inj (hid ▸ hj1)
            exact hd2
          · exact m3 c1 hmem j1 hj1
      · simp only at h
        split at h
        · rename_i hlt
          obtain ⟨m1, m2, m3⟩ := ih _ i d h
          have hd2 : d ≤ distSq tx ty c := by
            rcases m1 with m1 | _
            · have he := (Prod.mk.injEq _ _ _ _).mp (Option.some.inj m1)
              exact le_of_eq he.2.symm
            · exact m2 j (distSq tx ty c) rfl
          refine ⟨?_, ?_, ?_⟩
          · rcases m1 with m1 | ⟨c1, hc1, hm⟩
            · have he := (Prod.mk.injEq _ _ _ _).mp (Option.some.inj m1)
              exact Or.inr ⟨c, List.mem_cons_self _ _, he.1 ▸ hid, he.2.symm⟩
            · exact Or.inr ⟨c1, List.mem_cons_of_mem _ hc1, hm⟩
          · intro b bd1 hb
            have he := (Prod.mk.injEq _ _ _ _).mp (Option.some.inj hb)
            rw [← he.2]
            exact le_of_lt (lt_of_le_of_lt hd2 hlt)
          · intro c1 hc1 j1 hj1
            rcases List.mem_cons.mp hc1 with rfl | hmem
            · exact hd2
            · exact m3 c1 hmem j1 hj1
        · rename_i hnlt
          obtain ⟨m1, m2, m3⟩ := ih _ i d h
          have hdbd : d ≤ bd := by
            rcases m1 with m1 | _
            · have he := (Prod.mk.injEq _ _ _ _).mp (Option.some.inj m1)
              exact le_of_eq he.2.symm
            · exact m2 bi bd rfl
          refine ⟨?_, ?_, ?_⟩
          · rcases m1 with m1 | ⟨c1, hc1, hm⟩
            · exact Or.inl m1
            · exact Or.inr ⟨c1, List.mem_cons_of_mem _ hc1, hm⟩
          · intro b bd1 hb
            have he := (Prod.mk.injEq _ _ _ _).mp (Option.some.inj hb)
            rw [← he.2]
            exact hdbd
          · intro c1 hc1 j1 hj1
            rcases List.mem_cons.mp hc1 with rfl | hmem
            · exact le_trans hdbd (le_of_not_lt hnlt)
            · exact m3 c1 hmem j1 hj1

/--
Claim C9.  `findClosestObjectAtScreenPoint` returns `none` when no objects
exist, and otherwise (whenever at least one child carries an object id)
returns the id of an object whose camera-projected NDC position has
minimal Euclidean distance to the NDC image `(2·nx − 1, 1 − 2·ny)` of the
normalized screen point.
-/
theorem findClosest_min_spec (children : List ScreenChild) (nx ny : ℚ) (c0 : ScreenChild)
    (i0 : String) (hc0 : c0 ∈ children) (hid : c0.objId = some i0) :
    findClosestObjectAtScreenPoint [] nx ny = none ∧
      ∃ b cb, findClosestObjectAtScreenPoint children nx ny = some b ∧ cb ∈ children ∧
        cb.objId = some b ∧
        ∀ c ∈ children, c.objId.isSome →
          ndcDist (nx * 2 - 1) (1 - ny * 2) cb ≤ ndcDist (nx * 2 - 1) (1 - ny * 2) c := by
  constructor
  · rfl
  · have hne : children.isEmpty = false := by
      cases children with
      | nil => simp at hc0
      | cons x xs => rfl
    have hsome : (pickLoop (nx * 2 - 1) (1 - ny * 2) children none).isSome :=
      pickLoop_isSome _ _ children none (Or.inr ⟨c0, hc0, by simp [hid]⟩)
    rcases hres : pickLoop (nx * 2 - 1) (1 - ny * 2) children none with _ | ⟨b, d⟩
    · rw [hres] at hsome
      simp at hsome
    · obtain ⟨m1, _, m3⟩ := pickLoop_result _ _ children none b d hres
      rcases m1 with m1 | ⟨cb, hcb, hcbid, hcbd⟩
      · simp at m1
      · refine ⟨b, cb, ?_, hcb, hcbid, ?_⟩
        · unfold findClosestObjectAtScreenPoint
          rw [hne, hres]
          rfl
        · intro c hc hcs
          rcases hcj : c.objId with _ | j
          · rw [hcj] at hcs
            simp at hcs
          · have hle : d ≤ distSq (nx * 2 - 1) (1 - ny * 2) c := m3 c hc j hcj
            unfold ndcDist
            refine Real.sqrt_le_sqrt ?_
            rw [← hcbd]
            exact_mod_cast hle

/-- C9 witness: three objects at known NDC positions, picked from screen
point (0.5, 0.5); the nearest is the one at the NDC origin. -/
theorem findClosest_min_spec_witness :
    findClosestObjectAtScreenPoint [] (1/2) (1/2) = none ∧
      ∃ b cb,
        findClosestObjectAtScreenPoint
            [⟨some "a", 0, 0⟩, ⟨some "b", 1/2, 0⟩, ⟨some "c", -1, 1⟩] (1/2) (1/2) = some b ∧
          cb ∈ [⟨some "a", 0, 0⟩, ⟨some "b", 1/2, 0⟩, ⟨some "c", -1, 1⟩] ∧
          cb.objId = some b ∧
          ∀ c ∈ [(⟨some "a", 0, 0⟩ : ScreenChild), ⟨some "b", 1/2, 0⟩, ⟨some "c", -1, 1⟩],
            c.objId.isSome →
              ndcDist (1/2 * 2 - 1) (1 - 1/2 * 2) cb ≤ ndcDist (1/2 * 2 - 1) (1 - 1/2 * 2) c :=
  findClosest_min_spec [⟨some "a", 0, 0⟩, ⟨some "b", 1/2, 0⟩, ⟨some "c", -1, 1⟩]
    (1/2) (1/2) ⟨some "a", 0, 0⟩ "a" (by simp) rfl

end Picking

namespace Env

/--
Claim C5, counterexample.  The claim that a new environment change discards a
prior "previous" pair — removing it from the scene and disposing it — is
false on the code: after three `setSkyAndTerrain` calls with no fade frames
in between, the first pair (meshes 0 and 1), which was the "previous" pair
pre-empted by the third call, is still in the scene, undisposed, and pinned
at full opacity, while the renderer now tracks meshes 2 and 3 as previous.
-/
theorem crossfade_orphan_counterexample :
    (setSkyAndTerrain (setSkyAndTerrain (setSkyAndTerrain mkEnv))).lastSky = some 2 ∧
      (setSkyAndTerrain (setSkyAndTerrain (setSkyAndTerrain mkEnv))).lastTerrain = some 3 ∧
      (setSkyAndTerrain (setSkyAndTerrain (setSkyAndTerrain mkEnv))).meshes 0 =
        ⟨1, false, true⟩ ∧
      (setSkyAndTerrain (setSkyAndTerrain (setSkyAndTerrain mkEnv))).meshes 1 =
        ⟨1, false, true⟩ := by
  refine ⟨?_, ?_, ?_, ?_⟩ <;> with_unfolding_all rfl

/--
Claim C5, amended.  `setSkyAndTerrain` called while an environment exists
promotes the current sky/terrain pair to the single tracked "previous" pair
with opacity pinned to 1 and restarts the fade, creating the new pair at
zero opacity; a prior previous pair is only dropped from tracking — its
meshes are left untouched (still in the scene, not disposed); and once the
crossfade progress reaches 1 the tracked previous pair is removed from the
scene, disposed, and its reference cleared.
-/
theorem crossfade_previous_pair_spec (s : EnvState) (i j : ℕ)
    (hsky : s.sky = some i) (hterr : s.terrain = some j)
    (hij : i ≠ j) (hi : i < s.nextId) (hj : j < s.nextId) :
    (setSkyAndTerrain s).lastSky = some i ∧
      (setSkyAndTerrain s).lastTerrain = some j ∧
      ((setSkyAndTerrain s).meshes i).opacity = 1 ∧
      ((setSkyAndTerrain s).meshes j).opacity = 1 ∧
      (setSkyAndTerrain s).textureFadeProgress = 0 ∧
      (setSkyAndTerrain s).sky = some s.nextId ∧
      (setSkyAndTerrain s).terrain = some (s.nextId + 1) ∧
      (setSkyAndTerrain s).meshes s.nextId = ⟨0, false, true⟩ ∧
      (setSkyAndTerrain s).meshes (s.nextId + 1) = ⟨0, false, true⟩ ∧
      (∀ k, k ≠ i → k ≠ j → k < s.nextId → (setSkyAndTerrain s).meshes k = s.meshes k) ∧
      (∀ (s2 : EnvState) (delta : ℚ) (p : ℕ), s2.lastSky = some p →
        s2.textureFadeProgress < 1 →
        1 ≤ s2.textureFadeProgress + delta / TEXTURE_FADE_DURATION →
        (fadeStep delta s2).lastSky = none ∧ ((fadeStep delta s2).meshes p).disposed = true ∧
          ((fadeStep delta s2).meshes p).inScene = false) ∧
      (∀ (s2 : EnvState) (delta : ℚ) (q : ℕ), s2.lastTerrain = some q →
        s2.textureFadeProgress < 1 →
        1 ≤ s2.textureFadeProgress + delta / TEXTURE_FADE_DURATION →
        (fadeStep delta s2).lastTerrain = none ∧
          ((fadeStep delta s2).meshes q).disposed = true ∧
          ((fadeStep delta s2).meshes q).inScene = false) := by
  have hin : i ≠ s.nextId := Nat.ne_of_lt hi
  have hin1 : i ≠ s.nextId + 1 := by omega
  have hjn : j ≠ s.nextId := Nat.ne_of_lt hj
  have hjn1 : j ≠ s.nextId + 1 := by omega
  have hexp : setSkyAndTerrain s =
      { meshes := updMesh (updMesh (updMesh (updMesh s.meshes i (setOpac 1)) s.nextId
          (fun _ => ⟨0, false, true⟩)) j (setOpac 1)) (s.nextId + 1) (fun _ => ⟨0, false, true⟩)
        nextId := s.nextId + 2
        sky := some s.nextId
        terrain := some (s.nextId + 1)
        lastSky := some i
        lastTerrain := some j
        textureFadeProgress := 0 } := by
    unfold setSkyAndTerrain promoteSky addSky promoteTerrain addTerrain
    simp [hsky, hterr]
  refine ⟨?_, ?_, ?_, ?_, ?_, ?_, ?_, ?_, ?_, ?_, ?_, ?_⟩
  · rw [hexp]
  · rw [hexp]
  · rw [hexp]
    simp [updMesh, setOpac, hin1, hij, hin]
  · rw [hexp]
    simp [updMesh, setOpac, hjn1, hjn]
  · rw [hexp]
  · rw [hexp]
  · rw [hexp]
  · rw [hexp]
    have hnj : s.nextId ≠ j := Ne.symm hjn
    have hnn1 : s.nextId ≠ s.nextId + 1 := by omega
    simp [updMesh, setOpac, hnj, hnn1]
  · rw [hexp]
    simp [updMesh]
  · intro k hki hkj hkn
    have hk1 : k ≠ s.nextId := Nat.ne_of_lt hkn
    have hk2 : k ≠ s.nextId + 1 := by omega
    rw [hexp]
    simp [updMesh, hki, hkj, hk1, hk2]
  · intro s2 delta p hp hlt hge
    have htrans : (s2.textureFadeProgress < 1 ∧
        (s2.sky.isSome ∨ s2.terrain.isSome ∨ s2.lastSky.isSome ∨ s2.lastTerrain.isSome)) := by
      exact ⟨hlt, Or.inr (Or.inr (Or.inl (by simp [hp])))⟩
    have ht1 : min 1 (s2.textureFadeProgress + delta / TEXTURE_FADE_DURATION) = 1 :=
      min_eq_left hge
    unfold fadeStep
    rw [if_pos htrans, ht1]
    rw [if_pos (le_refl (1:ℚ))]
    simp only [hp]
    rcases hq : s2.lastTerrain with _ | q
    · simp [updMesh, removeDispose]
    · by_cases hpq : p = q
      · subst hpq
        simp [updMesh, removeDispose]
      · simp [updMesh, removeDispose, hpq, fun h : q = p => hpq h.symm]
  · intro s2 delta q hq hlt hge
    have htrans : (s2.textureFadeProgress < 1 ∧
        (s2.sky.isSome ∨ s2.terrain.isSome ∨ s2.lastSky.isSome ∨ s2.lastTerrain.isSome)) :=
      ⟨hlt, Or.inr (Or.inr (Or.inr (by simp [hq])))⟩
    have ht1 : min 1 (s2.textureFadeProgress + delta / TEXTURE_FADE_DURATION) = 1 :=
      min_eq_left hge
    unfold fadeStep
    rw [if_pos htrans, ht1]
    rw [if_pos (le_refl (1:ℚ))]
    rcases hp : s2.lastSky with _ | p <;> simp [hp, hq, updMesh, removeDispose]

/-- C5 witness: a third environment change applied to the state after two
changes (current pair meshes 2/3, previous pair meshes 0/1 mid-fade). -/
theorem crossfade_previous_pair_spec_witness :
    (setSkyAndTerrain (setSkyAndTerrain (setSkyAndTerrain mkEnv))).lastSky = some 2 ∧
      (setSkyAndTerrain (setSkyAndTerrain (setSkyAndTerrain mkEnv))).lastTerrain = some 3 ∧
      ((setSkyAndTerrain (setSkyAndTerrain (setSkyAndTerrain mkEnv))).meshes 2).opacity = 1 ∧
      (setSkyAndTerrain (setSkyAndTerrain (setSkyAndTerrain mkEnv))).textureFadeProgress = 0 := by
  have h := crossfade_previous_pair_spec (setSkyAndTerrain (setSkyAndTerrain mkEnv)) 2 3
    (by with_unfolding_all rfl) (by with_unfolding_all rfl) (by decide)
    (by with_unfolding_all decide) (by with_unfolding_all decide)
  exact ⟨h.1, h.2.1, h.2.2.1, h.2.2.2.2.1⟩

end Env

namespace Dispatch

theorem runMatching_events_hand (h : Hand) (hd : HandStats) (ctx : CameraActionContext)
    (acts : List CameraAction) (r : RendererState) :
    ∀ a ∈ (runMatching h hd ctx acts r).2, a.hand = h := by
  unfold runMatching
  suffices H : ∀ (acc : RendererState × List CameraAction), (∀ a ∈ acc.2, a.hand = h) →
      ∀ a ∈ (acts.foldl
        (fun acc a =>
          if a.hand = h ∧ a.gesture = hd.gesture then (a.execute ctx acc.1, acc.2 ++ [a])
          else acc) acc).2, a.hand = h by
    exact H (r, []) (by simp)
  induction acts with
  | nil =>
    intro acc hacc
    simpa using hacc
  | cons b rest ih =>
    intro acc hacc
    rw [List.foldl_cons]
    refine ih _ ?_
    by_cases hcond : (b.hand = h ∧ b.gesture = hd.gesture)
    · rw [if_pos hcond]
      intro a ha
      rcases List.mem_append.mp ha with ha | ha
      · exact hacc a ha
      · have hab : a = b := by simpa using ha
        exact hab ▸ hcond.1
    · rw [if_neg hcond]
      exact hacc

theorem runBoth_events_hand (acts : List CameraAction) (l rt : HandStats)
    (ctx : CameraActionContext) (r : RendererState) :
    ∀ a ∈ (runBoth acts l rt ctx r).2, a.hand = Hand.both := by
  unfold runBoth
  suffices H : ∀ (acc : RendererState × List CameraAction),
      (∀ a ∈ acc.2, a.hand = Hand.both) →
      ∀ a ∈ (acts.foldl
        (fun acc a =>
          if a.hand = Hand.both ∧ l.gesture = "Pinch" ∧ rt.gesture = "Pinch" ∧
              a.gesture = "Pinch+Pinch" then
            (a.execute ctx acc.1, acc.2 ++ [a])
          else acc) acc).2, a.hand = Hand.both by
    exact H (r, []) (by simp)
  induction acts with
  | nil =>
    intro acc hacc
    simpa using hacc
  | cons b rest ih =>
    intro acc hacc
    rw [List.foldl_cons]
    refine ih _ ?_
    by_cases hcond : (b.hand = Hand.both ∧ l.gesture = "Pinch" ∧ rt.gesture = "Pinch" ∧
        b.gesture = "Pinch+Pinch")
    · rw [if_pos hcond]
      intro a ha
      rcases List.mem_append.mp ha with ha | ha
      · exact hacc a ha
      · have hab : a = b := by simpa using ha
        exact hab ▸ hcond.1
    · rw [if_neg hcond]
      exact hacc

/--
Claim C1.  Whenever a left hand is present in the hand summaries, no
registered right-hand (navigation) action executes during that `process`
call: the two-hand block only runs both-hand actions, the left block only
runs left-hand actions, and the right-hand navigation block is guarded by
`!manipulationMode`, which is false the moment a left hand exists.
-/
theorem right_actions_suppressed_when_left_present (m : CameraActionManager)
    (handStats : HandStatsInput) (r : RendererState) (l : HandStats)
    (hl : handStats.left = some l) :
    ∀ a ∈ (process m handStats r).2.2, a.hand ≠ Hand.right := by
  rcases handStats with ⟨hsleft, hsright⟩
  simp only at hl
  subst hl
  rcases hsright with _ | rt
  · intro a ha
    unfold process at ha
    dsimp only at ha
    rw [List.nil_append, List.append_nil] at ha
    have hhand := runMatching_events_hand Hand.left l _ m.actions _ a ha
    rw [hhand]
    decide
  · intro a ha
    unfold process at ha
    dsimp only at ha
    simp only [Option.isSome_some, if_true, List.append_nil] at ha
    rcases List.mem_append.mp ha with hmem | hmem
    · have hhand := runBoth_events_hand _ l rt _ _ a hmem
      rw [hhand]
      decide
    · have hhand := runMatching_events_hand Hand.left l _ _ _ a hmem
      rw [hhand]
      decide

/-- C1 witness: both hands present (left pinching, right open palm) with
all six built-in actions registered. -/
theorem right_actions_suppressed_when_left_present_witness :
    ((process
        ⟨[.orbitCameraAction, .dollyCameraAction, .pinchTranslateAction, .fistRotateAction,
          .palmReleaseAction, .twoHandPinchScaleAction], ⟨0, 0⟩, ⟨0, 0⟩, 0, 0⟩
        ⟨some ⟨"Pinch", 1, ⟨1/2, 1/2⟩, [], 0, "Left"⟩,
          some ⟨"Open Palm", 1, ⟨3/4, 1/2⟩, [], 0, "Right"⟩⟩
        ⟨[], none, ⟨0, 0⟩, 0⟩).2.2.all fun a => a.hand != Hand.right) = true := by
  have h := right_actions_suppressed_when_left_present
    ⟨[.orbitCameraAction, .dollyCameraAction, .pinchTranslateAction, .fistRotateAction,
      .palmReleaseAction, .twoHandPinchScaleAction], ⟨0, 0⟩, ⟨0, 0⟩, 0, 0⟩
    ⟨some ⟨"Pinch", 1, ⟨1/2, 1/2⟩, [], 0, "Left"⟩,
      some ⟨"Open Palm", 1, ⟨3/4, 1/2⟩, [], 0, "Right"⟩⟩
    ⟨[], none, ⟨0, 0⟩, 0⟩ ⟨"Pinch", 1, ⟨1/2, 1/2⟩, [], 0, "Left"⟩ rfl
  rw [List.all_eq_true]
  intro a ha
  simpa using h a ha

theorem transformOf_applyManip_pointSize (o : RObject) (q : ℚ) :
    transformOf { o with pointSize := q } = transformOf o := rfl

theorem setSelectedObjectId_preserves (r : RendererState) (target : Option String) :
    (r.setSelectedObjectId target).rig = r.rig ∧
      (r.setSelectedObjectId target).dollyOffset = r.dollyOffset ∧
      (r.setSelectedObjectId target).objects.map transformOf = r.objects.map transformOf ∧
      (r.setSelectedObjectId target).selectedObjectId = target := by
  unfold RendererState.setSelectedObjectId
  split
  · rename_i heq
    exact ⟨rfl, rfl, rfl, heq⟩
  · have hone : ∀ (i : String) (q : ℚ) (l : List RObject),
        (l.map fun o => if o.id = i then { o with pointSize := q } else o).map transformOf =
          l.map transformOf := by
      intro i q l
      rw [List.map_map]
      refine List.map_congr_left ?_
      intro o _
      show transformOf (if o.id = i then { o with pointSize := q } else o) = transformOf o
      by_cases ho : o.id = i
      · rw [if_pos ho]
        simp only [transformOf]
      · rw [if_neg ho]
    rcases hsel : r.selectedObjectId with _ | prev <;> rcases htgt : target with _ | tgt <;>
      refine ⟨?_, ?_, ?_, ?_⟩ <;> (try simp only [hsel, htgt]) <;>
      first
        | rfl
        | trivial
        | (rw [hone, hone])
        | (rw [hone])

/--
Claim C10.  When neither hand is present, `process` executes no action and
leaves the camera rig, the dolly offset, and the transform of every object
untouched; its only effects are clearing the selection
(`setSelectedObjectId none`, which at most resets the highlight point
size) and resetting the stored inter-hand distance to zero — the stored
previous left/right hand centers and the stored pointing angle are left
unchanged.
-/
theorem process_no_hands_effect (m : CameraActionManager) (handStats : HandStatsInput)
    (r : RendererState) (hl : handStats.left = none) (hr : handStats.right = none) :
    process m handStats r =
        ({ m with lastTwoHandDistance := 0 }, r.setSelectedObjectId none, []) ∧
      (r.setSelectedObjectId none).rig = r.rig ∧
      (r.setSelectedObjectId none).dollyOffset = r.dollyOffset ∧
      (r.setSelectedObjectId none).objects.map transformOf = r.objects.map transformOf ∧
      (r.setSelectedObjectId none).selectedObjectId = none := by
  obtain ⟨p1, p2, p3, p4⟩ := setSelectedObjectId_preserves r none
  refine ⟨?_, p1, p2, p3, p4⟩
  rcases handStats with ⟨hsleft, hsright⟩
  simp only at hl hr
  subst hl
  subst hr
  unfold process
  dsimp only
  rfl

/-- C10 witness: an empty hand-summary frame against a one-object scene
with a live selection. -/
theorem process_no_hands_effect_witness :
    process
        ⟨[.orbitCameraAction, .twoHandPinchScaleAction], ⟨1/4, 1/4⟩, ⟨3/4, 1/4⟩, 2/5, 1⟩
        ⟨none, none⟩ ⟨[⟨"a", 0, 0, 0, 0, 1, 1, 1, 0, 0, POINT_SIZE⟩], some "a", ⟨0, 0⟩, 0⟩ =
        ({ actions := [.orbitCameraAction, .twoHandPinchScaleAction], lastLeft := ⟨1/4, 1/4⟩,
            lastRight := ⟨3/4, 1/4⟩, lastTwoHandDistance := 0, lastLeftAngle := 1 },
          RendererState.setSelectedObjectId
            ⟨[⟨"a", 0, 0, 0, 0, 1, 1, 1, 0, 0, POINT_SIZE⟩], some "a", ⟨0, 0⟩, 0⟩ none, []) ∧
      (RendererState.setSelectedObjectId
          ⟨[⟨"a", 0, 0, 0, 0, 1, 1, 1, 0, 0, POINT_SIZE⟩], some "a", ⟨0, 0⟩, 0⟩ none).rig =
        (⟨[⟨"a", 0, 0, 0, 0, 1, 1, 1, 0, 0, POINT_SIZE⟩], some "a", ⟨0, 0⟩, 0⟩ :
          RendererState).rig ∧
      (RendererState.setSelectedObjectId
          ⟨[⟨"a", 0, 0, 0, 0, 1, 1, 1, 0, 0, POINT_SIZE⟩], some "a", ⟨0, 0⟩, 0⟩
          none).dollyOffset =
        (⟨[⟨"a", 0, 0, 0, 0, 1, 1, 1, 0, 0, POINT_SIZE⟩], some "a", ⟨0, 0⟩, 0⟩ :
          RendererState).dollyOffset ∧
      ((RendererState.setSelectedObjectId
          ⟨[⟨"a", 0, 0, 0, 0, 1, 1, 1, 0, 0, POINT_SIZE⟩], some "a", ⟨0, 0⟩, 0⟩
          none).objects.map transformOf) =
        ((⟨[⟨"a", 0, 0, 0, 0, 1, 1, 1, 0, 0, POINT_SIZE⟩], some "a", ⟨0, 0⟩, 0⟩ :
          RendererState).objects.map transformOf) ∧
      (RendererState.setSelectedObjectId
          ⟨[⟨"a", 0, 0, 0, 0, 1, 1, 1, 0, 0, POINT_SIZE⟩], some "a", ⟨0, 0⟩, 0⟩
          none).selectedObjectId = none :=
  process_no_hands_effect
    ⟨[.orbitCameraAction, .twoHandPinchScaleAction], ⟨1/4, 1/4⟩, ⟨3/4, 1/4⟩, 2/5, 1⟩
    ⟨none, none⟩ ⟨[⟨"a", 0, 0, 0, 0, 1, 1, 1, 0, 0, POINT_SIZE⟩], some "a", ⟨0, 0⟩, 0⟩ rfl rfl

/--
Claim C6.  Whenever the two-hand pinch-scale action applies a scale change,
the multiplier it passes to `manipulateObject` is exactly the inter-hand
distance ratio `hypot(Δcenter) / previousDistance` clamped to
`[0.7, 1.4]`, whatever the raw ratio; and it applies nothing at all unless
an object is selected, both hands are carried in the context, and the
stored previous inter-hand distance is positive.
-/
theorem twoHandPinchScale_clamped (ctx : CameraActionContext) (r : RendererState)
    (id : String) (lh rh : HandStats) (dPrev : ℝ)
    (hsel : r.selectedObjectId = some id) (hlh : ctx.leftHand = some lh)
    (hrh : ctx.rightHand = some rh) (hd : ctx.lastTwoHandDistance = some dPrev)
    (hpos : 0 < dPrev) :
    CameraAction.execute .twoHandPinchScaleAction ctx r =
        r.manipulateObject id (.scaleBy (max 0.7 (min 1.4
          (hypot ((rh.center.x : ℝ) - (lh.center.x : ℝ))
            ((rh.center.y : ℝ) - (lh.center.y : ℝ)) / dPrev)))) ∧
      (0.7 : ℝ) ≤ max 0.7 (min 1.4
        (hypot ((rh.center.x : ℝ) - (lh.center.x : ℝ))
          ((rh.center.y : ℝ) - (lh.center.y : ℝ)) / dPrev)) ∧
      max 0.7 (min 1.4
        (hypot ((rh.center.x : ℝ) - (lh.center.x : ℝ))
          ((rh.center.y : ℝ) - (lh.center.y : ℝ)) / dPrev)) ≤ 1.4 ∧
      (∀ (ctx2 : CameraActionContext) (r2 : RendererState),
        (r2.selectedObjectId = none ∨ ctx2.leftHand = none ∨ ctx2.rightHand = none ∨
          ctx2.lastTwoHandDistance = none ∨
          (∃ d0, ctx2.lastTwoHandDistance = some d0 ∧ d0 ≤ 0)) →
        CameraAction.execute .twoHandPinchScaleAction ctx2 r2 = r2) := by
  refine ⟨?_, le_max_left _ _, max_le (by norm_num) (min_le_left _ _), ?_⟩
  · simp only [CameraAction.execute, RendererState.getSelectedObjectId, hsel, hlh, hrh, hd]
    rw [if_neg (not_le.mpr hpos)]
  · intro ctx2 r2 hdisj
    rcases hs : r2.selectedObjectId with _ | id2
    · simp [CameraAction.execute, RendererState.getSelectedObjectId, hs]
    rcases hl2 : ctx2.leftHand with _ | lh2
    · simp [CameraAction.execute, RendererState.getSelectedObjectId, hs, hl2]
    rcases hr2 : ctx2.rightHand with _ | rh2
    · simp [CameraAction.execute, RendererState.getSelectedObjectId, hs, hl2, hr2]
    rcases hd2 : ctx2.lastTwoHandDistance with _ | d0
    · simp [CameraAction.execute, RendererState.getSelectedObjectId, hs, hl2, hr2, hd2]
    have hle : d0 ≤ 0 := by
      rcases hdisj with hcase | hcase | hcase | hcase | ⟨d1, hd1, hle1⟩
      · rw [hs] at hcase
        exact absurd hcase (by simp)
      · rw [hl2] at hcase
        exact absurd hcase (by simp)
      · rw [hr2] at hcase
        exact absurd hcase (by simp)
      · rw [hd2] at hcase
        exact absurd hcase (by simp)
      · have hinj : d0 = d1 := Option.some.inj (hd2.symm.trans hd1)
        rw [hinj]
        exact hle1
    simp [CameraAction.execute, RendererState.getSelectedObjectId, hs, hl2, hr2, hd2, hle]

/-- C6 witness: selected object `"a"`, both hands pinching 0.5 apart, with
a stored previous distance of 1. -/
theorem twoHandPinchScale_clamped_witness :
    CameraAction.execute .twoHandPinchScaleAction
        ⟨⟨"Pinch", 1, ⟨0, 0⟩, [], 0, "Left"⟩, ⟨0, 0⟩, ⟨0, 0⟩,
          some ⟨"Pinch", 1, ⟨0, 0⟩, [], 0, "Left"⟩,
          some ⟨"Pinch", 1, ⟨3/10, 2/5⟩, [], 0, "Right"⟩, some 1, none⟩
        ⟨[⟨"a", 0, 0, 0, 0, 1, 1, 1, 0, 0, POINT_SIZE⟩], some "a", ⟨0, 0⟩, 0⟩ =
      RendererState.manipulateObject
        ⟨[⟨"a", 0, 0, 0, 0, 1, 1, 1, 0, 0, POINT_SIZE⟩], some "a", ⟨0, 0⟩, 0⟩ "a"
        (.scaleBy (max 0.7 (min 1.4
          (hypot ((((3:ℚ)/10 : ℚ) : ℝ) - ((0:ℚ) : ℝ)) ((((2:ℚ)/5 : ℚ) : ℝ) - ((0:ℚ) : ℝ)) /
            1)))) ∧
      (0.7 : ℝ) ≤ max 0.7 (min 1.4
        (hypot ((((3:ℚ)/10 : ℚ) : ℝ) - ((0:ℚ) : ℝ)) ((((2:ℚ)/5 : ℚ) : ℝ) - ((0:ℚ) : ℝ)) /
          1)) ∧
      max 0.7 (min 1.4
        (hypot ((((3:ℚ)/10 : ℚ) : ℝ) - ((0:ℚ) : ℝ)) ((((2:ℚ)/5 : ℚ) : ℝ) - ((0:ℚ) : ℝ)) /
          1)) ≤ 1.4 ∧
      (∀ (ctx2 : CameraActionContext) (r2 : RendererState),
        (r2.selectedObjectId = none ∨ ctx2.leftHand = none ∨ ctx2.rightHand = none ∨
          ctx2.lastTwoHandDistance = none ∨
          (∃ d0, ctx2.lastTwoHandDistance = some d0 ∧ d0 ≤ 0)) →
        CameraAction.execute .twoHandPinchScaleAction ctx2 r2 = r2) :=
  twoHandPinchScale_clamped
    ⟨⟨"Pinch", 1, ⟨0, 0⟩, [], 0, "Left"⟩, ⟨0, 0⟩, ⟨0, 0⟩,
      some ⟨"Pinch", 1, ⟨0, 0⟩, [], 0, "Left"⟩,
      some ⟨"Pinch", 1, ⟨3/10, 2/5⟩, [], 0, "Right"⟩, some 1, none⟩
    ⟨[⟨"a", 0, 0, 0, 0, 1, 1, 1, 0, 0, POINT_SIZE⟩], some "a", ⟨0, 0⟩, 0⟩ "a"
    ⟨"Pinch", 1, ⟨0, 0⟩, [], 0, "Left"⟩ ⟨"Pinch", 1, ⟨3/10, 2/5⟩, [], 0, "Right"⟩ 1
    rfl rfl rfl rfl one_pos

end Dispatch
